import Mathlib

/-!
Shallow embedding of the fable-xport repository (src/exporters.py,
src/fable_api.py) and proofs about the frozen claims.

Modelling conventions:
* Python values that flow through the exporter/merger pipeline are modelled
  by the inductive `Value` (None, bool, int, float, str, list, dict).
  Python floats are modelled exactly as rationals (`Rat`); no claim in this
  development depends on IEEE-754 rounding, only on which values are floats
  at all, so the exact model is adequate and keeps every definition
  executable.
* Python dicts are association lists with unique keys in insertion order
  (`Record`); `d.get(k)` is `rget`, `d.get(k, default)` is `rgetD`.
* Fallible Python operations (attribute access on a non-dict, iterating a
  non-iterable, `float()` of a non-number) are embedded in `Except PyErr`;
  code paths that cannot raise are embedded as total functions.
* `x or y` on Python values is `pyOr` (first operand when truthy, else the
  second).
-/

/-- Python exceptions that the embedded code can raise. -/
inductive PyErr where
  | typeError (msg : String)
  | valueError (msg : String)
  | attributeError (msg : String)
  deriving DecidableEq, Repr

/-- A Python value as it appears in the exporter pipeline. -/
inductive Value where
  | none
  | bool (b : Bool)
  | int (n : Int)
  | float (q : Rat)
  | str (s : String)
  | list (xs : List Value)
  | dict (kvs : List (String × Value))
  deriving Repr

/-- A Python dict with string keys: association list in insertion order,
keys assumed unique (inputs come from JSON objects). -/
abbrev Record := List (String × Value)

mutual

/-- Structural equality on `Value`, mirroring Python `==` on JSON-shaped
data (no cross-type numeric coercions are needed by the claims: the only
keys compared are strings). -/
def Value.beq : Value → Value → Bool
  | .none, .none => true
  | .bool a, .bool b => a == b
  | .int a, .int b => a == b
  | .float a, .float b => a == b
  | .str a, .str b => a == b
  | .list a, .list b => valueListBeq a b
  | .dict a, .dict b => recordEntriesBeq a b
  | _, _ => false

def valueListBeq : List Value → List Value → Bool
  | [], [] => true
  | a :: as, b :: bs => Value.beq a b && valueListBeq as bs
  | _, _ => false

def recordEntriesBeq : List (String × Value) → List (String × Value) → Bool
  | [], [] => true
  | (k, v) :: as, (l, w) :: bs => k == l && Value.beq v w && recordEntriesBeq as bs
  | _, _ => false

end

instance : BEq Value := ⟨Value.beq⟩

/-- Python truthiness (`bool(v)`). -/
def truthy : Value → Bool
  | .none => false
  | .bool b => b
  | .int n => n != 0
  | .float q => q != 0
  | .str s => s != ""
  | .list xs => !xs.isEmpty
  | .dict kvs => !kvs.isEmpty

/-- Python `isinstance(v, dict)`. -/
def Value.isDict : Value → Bool
  | .dict _ => true
  | _ => false

/-- Python `isinstance(v, list)`. -/
def Value.isList : Value → Bool
  | .list _ => true
  | _ => false

/-- First binding of key `k` in the record (keys are unique). -/
def rlookup (r : Record) (k : String) : Option Value :=
  match r with
  | [] => Option.none
  | (l, v) :: rest => if l = k then some v else rlookup rest k

/-- Python `r.get(k)` (default `None`). -/
def rget (r : Record) (k : String) : Value :=
  (rlookup r k).getD .none

/-- Python `r.get(k, d)`. -/
def rgetD (r : Record) (k : String) (d : Value) : Value :=
  (rlookup r k).getD d

/-- Python `a or b`. -/
def pyOr (a b : Value) : Value :=
  if truthy a then a else b

/-- Python `v.get(k)` where `v` is an arbitrary value: raises
`AttributeError` unless `v` is a dict. -/
def vgetE (v : Value) (k : String) : Except PyErr Value :=
  match v with
  | .dict r => .ok (rget r k)
  | _ => .error (.attributeError "object has no attribute get")

/-- Python iteration `for x in v`: lists yield elements, strings yield
one-character strings, dicts yield their keys, everything else raises
`TypeError`. -/
def pyIter (v : Value) : Except PyErr (List Value) :=
  match v with
  | .list xs => .ok xs
  | .str s => .ok (s.data.map (fun c => .str (String.mk [c])))
  | .dict kvs => .ok (kvs.map (fun kv => .str kv.1))
  | _ => .error (.typeError "object is not iterable")

/-- The canonical record returned by `normalize_book` for `None`,
non-mapping and empty-mapping input (src/exporters.py lines 16-51). -/
def canonicalEmpty : Record :=
  [ ("title", .str ""),
    ("subtitle", .str ""),
    ("authors", .list []),
    ("isbn", .none),
    ("imprint", .none),
    ("page_count", .none),
    ("published_date", .none),
    ("description", .str ""),
    ("cover_image", .str ""),
    ("genres", .list []),
    ("storygraph_genres", .list []),
    ("moods", .list []),
    ("content_warnings", .list []),
    ("status", .none),
    ("rating", .none),
    ("review", .str ""),
    ("review_summary_liked", .str ""),
    ("review_summary_disliked", .str ""),
    ("review_summary_disagreed", .str ""),
    ("contains_spoilers", .none),
    ("did_not_finish", .none),
    ("review_created_at", .none),
    ("added_at", .none),
    ("started_reading_at", .str ""),
    ("finished_reading_at", .str ""),
    ("current_page", .none),
    ("total_pages", .none),
    ("characters_rating", .none),
    ("plot_rating", .none),
    ("writing_style_rating", .none),
    ("setting_rating", .none),
    ("attributes", .list []),
    ("emoji_reaction", .str ""),
    ("spicy_level", .none) ]

/-- The guarded-access idiom `v.get(k) if isinstance(v, dict) else ""`
(src/exporters.py lines 74-80). -/
def getIfDict (v : Value) (k : String) : Value :=
  match v with
  | .dict d => rget d k
  | _ => .str ""

/-- The guarded-access idiom `v.get(k, []) if isinstance(v, dict) else []`
(src/exporters.py lines 68-70). -/
def tagsGet (v : Value) (k : String) : Value :=
  match v with
  | .dict d => rgetD d k (.list [])
  | _ => .list []

/-- The genres extraction (src/exporters.py lines 62-64): guarded by the
truthiness of the raw `genres` value, then the comprehension
`[g.get("name") for g in ... if isinstance(g, dict) and g.get("name")]`.
Iterating a truthy non-iterable raises `TypeError`. -/
def extractGenres (gv : Value) : Except PyErr (List Value) :=
  if truthy gv then do
    let elems ← pyIter gv
    pure (elems.filterMap (fun g =>
      match g with
      | .dict gd => if truthy (rget gd "name") then some (rget gd "name") else Option.none
      | _ => Option.none))
  else
    pure []

/-- The emoji-reaction expression (src/exporters.py line 132):
`book.get("emoji_reaction") or (book.get("emoji") or {}).get("content") or ""`,
with Python's short-circuit of `or` (the `.get` — which raises on a truthy
non-dict `emoji` — is only evaluated when `emoji_reaction` is falsy). -/
def extractEmoji (er emoji : Value) : Except PyErr Value :=
  if truthy er then
    pure er
  else do
    let c ← vgetE (pyOr emoji (.dict [])) "content"
    pure (pyOr c (.str ""))

/-- Embedding of `normalize_book` (src/exporters.py lines 8-134).  The only operations
that can raise are: iterating a truthy non-iterable `genres` value
(line 64), `.get` on a truthy non-dict `reading_progress` (lines 81-82)
and `.get` on a truthy non-dict `emoji` (line 132); everything else is
guarded by `isinstance` checks or `or` defaults exactly as in the source. -/
def normalize_book (book : Value) : Except PyErr Record :=
  match book with
  | .dict kvs =>
    -- `if not book or not isinstance(book, dict)`: an empty dict is falsy
    if kvs.isEmpty then
      .ok canonicalEmpty
    else do
      -- book_data = book.get("book", book) if isinstance(book.get("book"), dict) else book
      let book_data : Record :=
        match rget kvs "book" with
        | .dict d => d
        | _ => kvs
      -- authors = book_data.get("authors") or book.get("authors") or []
      let authors0 := pyOr (pyOr (rget book_data "authors") (rget kvs "authors")) (.list [])
      let authors := if authors0.isList then authors0 else Value.list []
      -- genres comprehension, guarded by `if book_data.get("genres"):`
      let genres ← extractGenres (rget book_data "genres")
      -- storygraph_tags = book_data.get("storygraph_tags") or {}
      let storygraph_tags := pyOr (rget book_data "storygraph_tags") (.dict [])
      let moods := tagsGet storygraph_tags "moods"
      let content_warnings := tagsGet storygraph_tags "content_warnings"
      let storygraph_genres := tagsGet storygraph_tags "genres"
      -- review_summary = book_data.get("review_summary") or {}
      let review_summary := pyOr (rget book_data "review_summary") (.dict [])
      let liked := getIfDict review_summary "liked"
      let disliked := getIfDict review_summary "disliked"
      let disagreed := getIfDict review_summary "disagreed"
      -- reading_progress = book_data.get("reading_progress") or {}
      let reading_progress := pyOr (rget book_data "reading_progress") (.dict [])
      let read_status := getIfDict reading_progress "status"
      -- current_page / total_pages are unguarded `.get` calls (lines 81-82)
      let current_page ← vgetE reading_progress "current_page"
      let total_pages ← vgetE reading_progress "page_count"
      -- detailed ratings are read from the OUTER record
      let characters_rating := rget kvs "characters_rating"
      let plot_rating := rget kvs "plot_rating"
      let writing_style_rating := rget kvs "writing_style_rating"
      let setting_rating := rget kvs "setting_rating"
      -- attributes = book.get("attributes", []) or []; reset unless a list
      let attributes0 := pyOr (rgetD kvs "attributes" (.list [])) (.list [])
      let attributesL : List Value :=
        match attributes0 with
        | .list xs => xs
        | _ => []
      let attribute_names := attributesL.filterMap (fun a =>
        match a with
        | .dict ad => if truthy (rget ad "name") then some (rget ad "name") else Option.none
        | _ => Option.none)
      let cover_image := pyOr (rget book_data "cover_image") (.str "")
      -- emoji_reaction (line 132), with Python short-circuit of `or`
      let emoji_reaction ← extractEmoji (rget kvs "emoji_reaction") (rget kvs "emoji")
      pure
        [ ("title", pyOr (rget book_data "title") (rget kvs "title")),
          ("subtitle", pyOr (rget book_data "subtitle") (.str "")),
          ("authors", authors),
          ("isbn", pyOr (rget book_data "isbn") (rget kvs "isbn")),
          ("imprint", pyOr (pyOr (rget book_data "publisher") (rget book_data "imprint")) (rget kvs "publisher")),
          ("page_count", pyOr (pyOr (rget book_data "page_count") (rget book_data "pages")) (rget kvs "page_count")),
          ("published_date", pyOr (pyOr (rget book_data "published_date") (rget book_data "publish_date")) (rget kvs "published_date")),
          ("description", pyOr (rget book_data "description") (.str "")),
          ("cover_image", cover_image),
          ("genres", .list genres),
          ("storygraph_genres", storygraph_genres),
          ("moods", moods),
          ("content_warnings", content_warnings),
          ("status", pyOr read_status (rget kvs "status")),
          ("rating", rget kvs "rating"),
          ("review", pyOr (rget kvs "review") (.str "")),
          ("review_summary_liked", liked),
          ("review_summary_disliked", disliked),
          ("review_summary_disagreed", disagreed),
          ("contains_spoilers", rget kvs "contains_spoilers"),
          ("did_not_finish", rget kvs "did_not_finish"),
          ("review_created_at", pyOr (rget kvs "review_created_at") (rget kvs "created_at")),
          ("added_at", rget kvs "added_at"),
          ("started_reading_at", pyOr (rget book_data "started_reading_at") (.str "")),
          ("finished_reading_at", pyOr (rget book_data "finished_reading_at") (.str "")),
          ("current_page", current_page),
          ("total_pages", total_pages),
          ("characters_rating", characters_rating),
          ("plot_rating", plot_rating),
          ("writing_style_rating", writing_style_rating),
          ("setting_rating", setting_rating),
          ("attributes", .list attribute_names),
          ("emoji_reaction", emoji_reaction),
          ("spicy_level", rget kvs "spicy_level") ]
  | _ => .ok canonicalEmpty

/-! ## The review merger (src/fable_api.py lines 282-325) -/

/-- Python `d[k] = v` on a dict: overwrite in place when the key exists,
append otherwise (insertion-order semantics). -/
def rset (r : Record) (k : String) (v : Value) : Record :=
  match r with
  | [] => [(k, v)]
  | (l, w) :: rest => if l = k then (k, v) :: rest else (l, w) :: rset rest k v

/-- Python `d.update(extra)`: assign every binding of `extra` in order. -/
def rupdate (r : Record) (extra : Record) : Record :=
  extra.foldl (fun acc kv => rset acc kv.1 kv.2) r

/-- The review lookup built by `fetch_user_reviews`: book identifier
mapped to a review record.  `reviewsLookup` is Python `reviews[k]` /
`k in reviews`. -/
abbrev ReviewMap := List (Value × Record)

def reviewsLookup (reviews : ReviewMap) (k : Value) : Option Record :=
  match reviews with
  | [] => Option.none
  | (l, r) :: rest => if Value.beq l k then some r else reviewsLookup rest k

/-- Body of the per-book `try` block of `merge_reviews_with_books`
(src/fable_api.py lines 300-320) for one non-null mapping book.  Every
operation in the block is total on a dict (`book.get`, `dict(book)`,
`reviews[book_id]` after the membership test, `dict.update`), so the
`except` handler at lines 321-323 is unreachable and the body is embedded
as a total function. -/
def mergeOne (book : Record) (reviews : ReviewMap) : Record :=
  -- book_data = book.get("book", {}) if isinstance(book.get("book"), dict) else book
  let book_data : Record :=
    match rget book "book" with
    | .dict d => d
    | _ => book
  -- `if not book_data or not isinstance(book_data, dict)`: book_data is
  -- always a dict here, so only emptiness can trigger the pass-through
  if book_data.isEmpty then
    book
  else
    let book_id := rget book_data "id"
    -- merged_book = dict(book)
    let merged_book := book
    -- `if book_id and book_id in reviews: ... if review_data and isinstance(review_data, dict)`
    if truthy book_id then
      match reviewsLookup reviews book_id with
      | some review_data =>
        if review_data.isEmpty then merged_book else rupdate merged_book review_data
      | Option.none => merged_book
    else
      merged_book

/-- Embedding of `merge_reviews_with_books` (src/fable_api.py lines 282-325): `None`
and non-mapping entries are skipped (`continue`, line 298); each mapping
entry contributes exactly one output record. -/
def merge_reviews_with_books (books : List Value) (reviews : ReviewMap) : List Value :=
  match books with
  | [] => []
  | b :: rest =>
    match b with
    | .dict kvs => .dict (mergeOne kvs reviews) :: merge_reviews_with_books rest reviews
    | _ => merge_reviews_with_books rest reviews

/-! ### Store-instrumented version of the merger, for the frame claim

Python dicts are mutable heap objects.  To state that
`merge_reviews_with_books` never mutates its inputs we re-embed it over an
explicit store: every top-level dict in the books list is a cell in a
`Heap` and list elements are references into it.  The merger performs
exactly two store operations per enriched book — `dict(book)` (a fresh
allocation) and `merged_book.update(...)` (a write to that fresh cell) —
and no other writes, mirroring lines 312 and 318 of src/fable_api.py.
Values below the top level are never mutated by the code, so they stay
inline.  An `HVal.imm` element models an object the books list does not
share with anything (in particular every non-dict entry). -/

structure Heap where
  cells : List Record

inductive HVal where
  | ref (a : Nat)
  | imm (v : Value)

def Heap.read (h : Heap) (a : Nat) : Record := h.cells.getD a []

def Heap.alloc (h : Heap) (r : Record) : Heap × Nat :=
  (⟨h.cells ++ [r]⟩, h.cells.length)

def Heap.write (h : Heap) (a : Nat) (r : Record) : Heap :=
  ⟨h.cells.set a r⟩

/-- One iteration of the merger loop over the store: skip non-dicts,
pass the original reference through when `book_data` is empty, otherwise
allocate the shallow copy `dict(book)` and overlay the review fields onto
the fresh cell only. -/
def merge_heap_step (h : Heap) (e : HVal) (reviews : ReviewMap) : Heap × Option HVal :=
  match e with
  | .imm (.dict kvs) => (h, some (.imm (.dict (mergeOne kvs reviews))))
  | .imm _ => (h, Option.none)
  | .ref a =>
    let book := h.read a
    let book_data : Record :=
      match rget book "book" with
      | .dict d => d
      | _ => book
    if book_data.isEmpty then
      (h, some (.ref a))
    else
      let p := h.alloc book
      let book_id := rget book_data "id"
      let h2 :=
        if truthy book_id then
          match reviewsLookup reviews book_id with
          | some review_data =>
            if review_data.isEmpty then p.1
            else p.1.write p.2 (rupdate (p.1.read p.2) review_data)
          | Option.none => p.1
        else p.1
      (h2, some (.ref p.2))

def merge_reviews_with_books_heap (h : Heap) (books : List HVal) (reviews : ReviewMap) :
    Heap × List HVal :=
  match books with
  | [] => (h, [])
  | e :: rest =>
    let p := merge_heap_step h e reviews
    let q := merge_reviews_with_books_heap p.1 rest reviews
    (q.1, match p.2 with
          | some x => x :: q.2
          | Option.none => q.2)

/-- The Python value an `HVal` denotes in a given store. -/
def HVal.toValue (h : Heap) : HVal → Value
  | .ref a => .dict (h.read a)
  | .imm v => v

/-! ## Python string conversions and format helpers (src/exporters.py) -/

/-- One character of a Python `repr` of a string, for a given quote
character.  Non-ASCII escaping of unprintable characters is not modelled;
no claim depends on `repr` output. -/
def pyEscapeChar (quote : Char) (c : Char) : String :=
  if c = '\\' then "\\\\"
  else if c = quote then "\\" ++ String.mk [quote]
  else if c = '\n' then "\\n"
  else if c = '\t' then "\\t"
  else if c = '\r' then "\\r"
  else String.mk [c]

/-- Python `repr` of a string: single quotes, unless the string contains a
single quote and no double quote. -/
def pyReprStr (s : String) : String :=
  let quote : Char := if s.data.contains '\'' && !s.data.contains '"' then '"' else '\''
  String.mk [quote] ++ String.join (s.data.map (pyEscapeChar quote)) ++ String.mk [quote]

/-- Decimal expansion of a fractional part in `[0, 1)`, up to `n` digits,
dropping a trailing zero tail. -/
def fracDigits : Nat → Rat → String
  | 0, _ => ""
  | Nat.succ k, q =>
    if q = 0 then ""
    else
      let q10 := q * 10
      let d := q10.floor
      toString d ++ fracDigits k (q10 - d)

/-- Python `repr`/`str` of a float.  Floats are modelled exactly as
rationals; for the dyadic values the pipeline produces (ratings such as
`4.5`) this agrees with CPython output.  No claim depends on the digits. -/
def pyReprFloat (q : Rat) : String :=
  let sign := if q < 0 then "-" else ""
  let aq := |q|
  let ip := aq.floor
  let fp := aq - ip
  sign ++ toString ip ++ "." ++ (if fp = 0 then "0" else fracDigits 17 fp)

mutual

/-- Python `str(v)` (which is `repr(v)` for containers, with inner strings
quoted). -/
def pyStr : Value → String
  | .none => "None"
  | .bool b => if b then "True" else "False"
  | .int n => toString n
  | .float q => pyReprFloat q
  | .str s => s
  | .list xs => "[" ++ String.intercalate ", " (pyReprList xs) ++ "]"
  | .dict kvs => "\x7b" ++ String.intercalate ", " (pyReprRecord kvs) ++ "\x7d"

def pyReprList : List Value → List String
  | [] => []
  | .str s :: rest => pyReprStr s :: pyReprList rest
  | v :: rest => pyStr v :: pyReprList rest

def pyReprRecord : List (String × Value) → List String
  | [] => []
  | (k, .str s) :: rest => (pyReprStr k ++ ": " ++ pyReprStr s) :: pyReprRecord rest
  | (k, v) :: rest => (pyReprStr k ++ ": " ++ pyStr v) :: pyReprRecord rest

end

/-- The string contents of a list of values, failing like `str.join` does
on the first non-string element. -/
def valuesAsStrs : List Value → Except PyErr (List String)
  | [] => .ok []
  | .str s :: rest => do
    let ss ← valuesAsStrs rest
    pure (s :: ss)
  | _ :: _ => .error (.typeError "sequence item: expected str instance")

/-- Python `sep.join(v)`: iterate `v`, require every item to be a string. -/
def pyJoinV (sep : String) (v : Value) : Except PyErr String := do
  let xs ← pyIter v
  let ss ← valuesAsStrs xs
  pure (String.intercalate sep ss)

/-- Digits of a natural number literal, `Option.none` when empty or
non-numeric. -/
def digitsToNat : List Char → Option Nat
  | [] => Option.none
  | cs =>
    if cs.all Char.isDigit then
      some (cs.foldl (fun a c => a * 10 + (c.toNat - 48)) 0)
    else
      Option.none

/-- Parse an unsigned decimal float literal `digits[.digits]`.
Exponent notation and `inf`/`nan` literals are not modelled; no claim
evaluates `float()` on such strings. -/
def parseUnsignedFloat (cs : List Char) : Option Rat :=
  let p := cs.span Char.isDigit
  match p.2 with
  | [] =>
    match digitsToNat p.1 with
    | some n => some (n : Rat)
    | Option.none => Option.none
  | '.' :: frac =>
    if frac.all Char.isDigit ∧ (p.1 ≠ [] ∨ frac ≠ []) then
      let ipart : Nat := (digitsToNat p.1).getD 0
      let fpart : Nat := (digitsToNat frac).getD 0
      some ((ipart : Rat) + (fpart : Rat) / ((10 : Rat) ^ frac.length))
    else
      Option.none
  | _ => Option.none

def parseFloatStr (s : String) : Option Rat :=
  match s.trim.data with
  | '-' :: rest => (parseUnsignedFloat rest).map (fun q => -q)
  | '+' :: rest => parseUnsignedFloat rest
  | cs => parseUnsignedFloat cs

/-- Python `float(v)`. -/
def pyFloat (v : Value) : Except PyErr Value :=
  match v with
  | .float q => .ok (.float q)
  | .int n => .ok (.float (n : Rat))
  | .bool b => .ok (.float (if b then 1 else 0))
  | .str s =>
    match parseFloatStr s with
    | some q => .ok (.float q)
    | Option.none => .error (.valueError "could not convert string to float")
  | _ => .error (.typeError "float argument must be a string or a real number")

/-- Embedding of `format_authors_list` (src/exporters.py lines 142-159).  The `, `.join
at line 159 fails if a truthy non-string name was collected from a dict
entry. -/
def format_authors_list (authors : Value) : Except PyErr String :=
  match authors with
  | .list xs =>
    -- `if not authors or not isinstance(authors, list): return ""`
    if xs.isEmpty then .ok ""
    else do
      let names := xs.filterMap (fun author =>
        match author with
        | .dict d =>
          let n := rgetD d "name" (.str "")
          if truthy n then some n else Option.none
        | .str s => if s ≠ "" then some (Value.str s) else Option.none
        | _ => Option.none)
      let ss ← valuesAsStrs names
      pure (String.intercalate ", " ss)
  | _ => .ok ""

/-- Replace non-overlapping occurrences of `pat` left to right, with fuel
(the fuel is the string length, enough for any non-empty pattern; both
call sites use one-character patterns). -/
def replaceAux : Nat → List Char → List Char → List Char → List Char
  | 0, _, _, cs => cs
  | Nat.succ fuel, pat, rep, cs =>
    match cs with
    | [] => []
    | c :: rest =>
      if pat.isPrefixOf cs ∧ pat ≠ [] then
        rep ++ replaceAux fuel pat rep (cs.drop pat.length)
      else
        c :: replaceAux fuel pat rep rest

/-- Python `s.replace(pat, rep)`. -/
def pyReplace (s pat rep : String) : String :=
  String.mk (replaceAux s.data.length pat.data rep.data s.data)

/-- Embedding of `extract_isbn` (src/exporters.py lines 162-174): split into ISBN-10 /
ISBN-13 by hyphen-stripped length.  `.replace` on a truthy non-string
raises `AttributeError`. -/
def extract_isbn (isbn : Value) : Except PyErr (String × String) :=
  if !truthy isbn then .ok ("", "")
  else
    match isbn with
    | .str s =>
      let normalized := pyReplace s "-" ""
      if normalized.length = 10 then .ok (normalized, "")
      else if normalized.length = 13 then .ok ("", normalized)
      else .ok (normalized, "")
    | _ => .error (.attributeError "object has no attribute replace")

def isLeapYear (y : Nat) : Bool :=
  (y % 4 = 0 && y % 100 ≠ 0) || y % 400 = 0

def daysInMonth (y m : Nat) : Nat :=
  if m = 2 then (if isLeapYear y then 29 else 28)
  else if m = 4 ∨ m = 6 ∨ m = 9 ∨ m = 11 then 30
  else 31

def twoDigits (a b : Char) : Option Nat :=
  if a.isDigit && b.isDigit then some ((a.toNat - 48) * 10 + (b.toNat - 48))
  else Option.none

/-- The UTC-offset tail `±HH:MM` accepted by `datetime.fromisoformat`
(empty allowed). -/
def validOffsetPart : List Char → Bool
  | [] => true
  | sgn :: h1 :: h2 :: ':' :: m1 :: m2 :: [] =>
    (sgn = '+' || sgn = '-') && h1.isDigit && h2.isDigit && m1.isDigit && m2.isDigit
  | _ => false

/-- Optional fractional seconds then optional offset. -/
def validFracPart : List Char → Bool
  | [] => true
  | '.' :: rest =>
    let p := rest.span Char.isDigit
    !p.1.isEmpty && p.1.length ≤ 6 && validOffsetPart p.2
  | cs => validOffsetPart cs

/-- The time-of-day part `HH:MM[:SS[.ffffff]][±HH:MM]` accepted by
`datetime.fromisoformat`. -/
def validTimePart : List Char → Bool
  | h1 :: h2 :: ':' :: m1 :: m2 :: rest =>
    (match twoDigits h1 h2, twoDigits m1 m2 with
     | some hh, some mm =>
       hh < 24 && mm < 60 &&
       (match rest with
        | [] => true
        | ':' :: s1 :: s2 :: rest2 =>
          (match twoDigits s1 s2 with
           | some ss => ss < 60 && validFracPart rest2
           | Option.none => false)
        | cs => validOffsetPart cs)
     | _, _ => false)
  | _ => false

/-- Model of `datetime.fromisoformat` on the exporter's inputs:
`YYYY-MM-DD` optionally followed by a one-character separator and a time
part.  Returns the date on success. -/
def parseIsoDate (s : String) : Option (Nat × Nat × Nat) :=
  match s.data with
  | y1 :: y2 :: y3 :: y4 :: '-' :: m1 :: m2 :: '-' :: d1 :: d2 :: rest =>
    (match digitsToNat [y1, y2, y3, y4], twoDigits m1 m2, twoDigits d1 d2 with
     | some y, some m, some d =>
       if 1 ≤ y ∧ 1 ≤ m ∧ m ≤ 12 ∧ 1 ≤ d ∧ d ≤ daysInMonth y m ∧
          (rest = [] ∨ (rest.length > 1 ∧ validTimePart rest.tail)) then
         some (y, m, d)
       else
         Option.none
     | _, _, _ => Option.none)
  | _ => Option.none

def pad2 (n : Nat) : String :=
  if n < 10 then "0" ++ toString n else toString n

def pad4 (n : Nat) : String :=
  if n < 10 then "000" ++ toString n
  else if n < 100 then "00" ++ toString n
  else if n < 1000 then "0" ++ toString n
  else toString n

/-- Embedding of `format_date` (src/exporters.py lines 177-186): render a parsed ISO
timestamp as `YYYY-MM-DD` (after turning a trailing `Z` into `+00:00`),
and swallow every parse failure — including `.replace` on a truthy
non-string — into the empty string. -/
def format_date (v : Value) : String :=
  if !truthy v then ""
  else
    match v with
    | .str s =>
      (match parseIsoDate (pyReplace s "Z" "+00:00") with
       | some ymd => pad4 ymd.1 ++ "-" ++ pad2 ymd.2.1 ++ "-" ++ pad2 ymd.2.2
       | Option.none => "")
    | _ => ""

/-! ## Exporters (src/exporters.py lines 189-485)

Filesystem effects are recorded as a trace of `FsOp`s performed before the
function returned or raised; the pure payload of each write is carried in
the operation.  Serialization performed by the `csv` / `json` standard
library writers is kept at the structured level (rows and records), except
for the per-cell string conversion of the CSV writer which the claims talk
about.  `datetime.now().strftime(...)` in the Markdown header is an
impure input and becomes the explicit `now` argument. -/

inductive FsOp where
  | mkdirParents (path : String)
  | createFile (path : String)
  | writeHeader (path : String) (fields : List String)
  | writeRow (path : String) (row : List (String × String))
  | writeStr (path : String) (content : String)
  | writeJson (path : String) (content : List Record)

/-- The 28 CSV column labels (src/exporters.py lines 203-232). -/
def csvFieldnames : List String :=
  [ "Title", "Subtitle", "Author(s)", "ISBN-10", "ISBN-13", "Publisher",
    "Pages", "Published Date", "Genres", "Moods", "Content Warnings",
    "Status", "Rating", "Characters Rating", "Plot Rating",
    "Writing Style Rating", "Setting Rating", "Review",
    "Review Summary - Liked", "Review Summary - Disliked",
    "Review Summary - Disagreed", "Attributes/Tags", "Emoji Reaction",
    "Contains Spoilers", "Did Not Finish", "Started Reading",
    "Finished Reading", "Date Added" ]

/-- One cell as the `csv` writer renders a row value: `None` becomes the
empty cell, strings are written as-is, anything else via `str()`. -/
def csvCell : Value → String
  | .none => ""
  | .str s => s
  | v => pyStr v

/-- The row built for one (non-`None`) book in `export_to_csv`
(src/exporters.py lines 243-280), already rendered to cell strings in
column order. -/
def build_csv_row (bookRaw : Value) : Except PyErr (List (String × String)) := do
  let book ← normalize_book bookRaw
  let p ← extract_isbn (rget book "isbn")
  let authors := rgetD book "authors" (.list [])
  let authorsStr ← format_authors_list authors
  let genresStr ← pyJoinV "; " (rgetD book "genres" (.list []))
  let moodsStr ← pyJoinV "; " (rgetD book "moods" (.list []))
  let cwStr ← pyJoinV "; " (rgetD book "content_warnings" (.list []))
  let attrStr ← pyJoinV "; " (rgetD book "attributes" (.list []))
  pure
    [ ("Title", csvCell (rgetD book "title" (.str ""))),
      ("Subtitle", csvCell (rgetD book "subtitle" (.str ""))),
      ("Author(s)", authorsStr),
      ("ISBN-10", p.1),
      ("ISBN-13", p.2),
      ("Publisher", csvCell (rgetD book "imprint" (.str ""))),
      ("Pages", csvCell (rgetD book "page_count" (.str ""))),
      ("Published Date", format_date (rget book "published_date")),
      ("Genres", genresStr),
      ("Moods", moodsStr),
      ("Content Warnings", cwStr),
      ("Status", csvCell (rgetD book "status" (.str ""))),
      ("Rating", csvCell (rgetD book "rating" (.str ""))),
      ("Characters Rating", csvCell (rgetD book "characters_rating" (.str ""))),
      ("Plot Rating", csvCell (rgetD book "plot_rating" (.str ""))),
      ("Writing Style Rating", csvCell (rgetD book "writing_style_rating" (.str ""))),
      ("Setting Rating", csvCell (rgetD book "setting_rating" (.str ""))),
      ("Review", csvCell (rgetD book "review" (.str ""))),
      ("Review Summary - Liked", csvCell (rgetD book "review_summary_liked" (.str ""))),
      ("Review Summary - Disliked", csvCell (rgetD book "review_summary_disliked" (.str ""))),
      ("Review Summary - Disagreed", csvCell (rgetD book "review_summary_disagreed" (.str ""))),
      ("Attributes/Tags", attrStr),
      ("Emoji Reaction", csvCell (rgetD book "emoji_reaction" (.str ""))),
      ("Contains Spoilers", if truthy (rget book "contains_spoilers") then "Yes" else "No"),
      ("Did Not Finish", if truthy (rget book "did_not_finish") then "Yes" else "No"),
      ("Started Reading", format_date (rget book "started_reading_at")),
      ("Finished Reading", format_date (rget book "finished_reading_at")),
      ("Date Added", format_date (pyOr (pyOr (rget book "review_created_at") (rget book "added_at")) (rget book "created_at"))) ]

/-- The row-writing loop of `export_to_csv`: `None` entries are skipped;
a raising row aborts with the trace written so far (the file stays
partially written, the `with open` block only closes it). -/
def csvWriteRows (path : String) (books : List Value) (acc : List FsOp) :
    List FsOp × Except PyErr String :=
  match books with
  | [] => (acc, .ok path)
  | .none :: rest => csvWriteRows path rest acc
  | b :: rest =>
    match build_csv_row b with
    | .ok row => csvWriteRows path rest (acc ++ [.writeRow path row])
    | .error e => (acc, .error e)

/-- Embedding of `export_to_csv` (src/exporters.py lines 189-284): the empty-input
check precedes every filesystem effect. -/
def export_to_csv (books : List Value) (output_path : String) :
    List FsOp × Except PyErr String :=
  if books.isEmpty then
    ([], .error (.valueError "No books to export"))
  else
    csvWriteRows output_path books
      [.mkdirParents output_path, .createFile output_path,
       .writeHeader output_path csvFieldnames]

/-- The rating coercion idiom of `export_to_json` (lines 329-334):
`float(book.get(k)) if book.get(k) else None`. -/
def jsonRatingField (v : Value) : Except PyErr Value :=
  if truthy v then pyFloat v else pure Value.none

/-- The `clean_book` object built for one (non-`None`) book in
`export_to_json` (src/exporters.py lines 310-356). -/
def clean_book (bookRaw : Value) : Except PyErr Record := do
  let book ← normalize_book bookRaw
  let p ← extract_isbn (rget book "isbn")
  let authorsStr ← format_authors_list (rgetD book "authors" (.list []))
  -- rating coercions, in the evaluation order of the dict literal
  let rating ← jsonRatingField (rget book "rating")
  let characters ← jsonRatingField (rget book "characters_rating")
  let plot ← jsonRatingField (rget book "plot_rating")
  let writing_style ← jsonRatingField (rget book "writing_style_rating")
  let setting ← jsonRatingField (rget book "setting_rating")
  pure
    [ ("title", rget book "title"),
      ("subtitle", rget book "subtitle"),
      ("authors", .str authorsStr),
      ("isbn10", .str p.1),
      ("isbn13", .str p.2),
      ("publisher", rget book "imprint"),
      ("pages", rget book "page_count"),
      ("published_date", .str (format_date (rget book "published_date"))),
      ("description", rget book "description"),
      ("cover_image", rget book "cover_image"),
      ("genres", rget book "genres"),
      ("moods", rget book "moods"),
      ("content_warnings", rget book "content_warnings"),
      ("status", rget book "status"),
      ("rating", rating),
      ("detailed_ratings", .dict
        [ ("characters", characters),
          ("plot", plot),
          ("writing_style", writing_style),
          ("setting", setting) ]),
      ("review", rget book "review"),
      ("review_summary", .dict
        [ ("liked", rget book "review_summary_liked"),
          ("disliked", rget book "review_summary_disliked"),
          ("disagreed", rget book "review_summary_disagreed") ]),
      ("contains_spoilers", rget book "contains_spoilers"),
      ("did_not_finish", rget book "did_not_finish"),
      ("attributes", rget book "attributes"),
      ("emoji_reaction", rget book "emoji_reaction"),
      ("spicy_level", rget book "spicy_level"),
      ("started_reading", .str (format_date (rget book "started_reading_at"))),
      ("finished_reading", .str (format_date (rget book "finished_reading_at"))),
      ("current_page", rget book "current_page"),
      ("total_pages", rget book "total_pages"),
      ("date_added", .str (format_date (pyOr (pyOr (rget book "review_created_at") (rget book "added_at")) (rget book "created_at")))) ]

/-- The `clean_books` accumulation loop of `export_to_json`
(src/exporters.py lines 306-357): `None` entries are skipped. -/
def cleanBooksLoop (books : List Value) : Except PyErr (List Record) :=
  match books with
  | [] => .ok []
  | .none :: rest => cleanBooksLoop rest
  | b :: rest => do
    let cb ← clean_book b
    let r ← cleanBooksLoop rest
    pure (cb :: r)

/-- Embedding of `export_to_json` (src/exporters.py lines 289-364): empty-input check,
mkdir, build all clean books (raising before the file is opened), write. -/
def export_to_json (books : List Value) (output_path : String) :
    List FsOp × Except PyErr String :=
  if books.isEmpty then
    ([], .error (.valueError "No books to export"))
  else
    match cleanBooksLoop books with
    | .ok clean_books =>
      ([.mkdirParents output_path, .createFile output_path,
        .writeJson output_path clean_books], .ok output_path)
    | .error e => ([.mkdirParents output_path], .error e)

/-- Python `str.title()` (only reachable through the dead default of
`status_labels.get(status, status.title())`, src/exporters.py line 410). -/
def pyTitle (s : String) : String :=
  let step := s.data.foldl
    (fun (acc : List Char × Bool) c =>
      if c.isAlpha then
        (acc.1 ++ [if acc.2 then c.toLower else c.toUpper], true)
      else
        (acc.1 ++ [c], false))
    ([], false)
  String.mk step.1

/-- Embedding of `status_labels.get(status, status.title())` (src/exporters.py lines
402-410). -/
def statusLabel (status : String) : String :=
  if status = "finished" then "Finished"
  else if status = "reading" then "Currently Reading"
  else if status = "unread" then "Want to Read"
  else pyTitle status

/-- The `if xs: lines.append(f"{label} {', '.join(xs)}\n")` idiom of the
Markdown book body (src/exporters.py lines 457-464). -/
def joinedLine (pre : String) (xs : Value) : Except PyErr (List String) :=
  if truthy xs then do
    let j ← pyJoinV ", " xs
    pure [pre ++ j ++ "\n"]
  else
    pure []

/-- The lines appended for one book of a section in `export_to_markdown`
(src/exporters.py lines 413-480).  The only raising operations are the
`, `.join calls on truthy genres/moods/attributes and inside
`format_authors_list`. -/
def book_lines (book : Record) : Except PyErr (List String) := do
  let title := rgetD book "title" (.str "Unknown")
  let subtitle := rgetD book "subtitle" (.str "")
  let authorsStr ← format_authors_list (rgetD book "authors" (.list []))
  let rating := rget book "rating"
  let review := rget book "review"
  let genres := rgetD book "genres" (.list [])
  let moods := rgetD book "moods" (.list [])
  let attributes := rgetD book "attributes" (.list [])
  let started := format_date (rget book "started_reading_at")
  let finished := format_date (rget book "finished_reading_at")
  let emoji := rgetD book "emoji_reaction" (.str "")
  let char_rating := rget book "characters_rating"
  let plot_rating := rget book "plot_rating"
  let writing_rating := rget book "writing_style_rating"
  let setting_rating := rget book "setting_rating"
  let l1 := ["### " ++ pyStr title ++ "\n"]
  let l2 := if truthy subtitle then ["*" ++ pyStr subtitle ++ "*\n\n"] else []
  let l3 := if authorsStr ≠ "" then ["**Author(s):** " ++ authorsStr ++ "\n"] else []
  let l4 :=
    if truthy rating then
      let emoji_str := if truthy emoji then " " ++ pyStr emoji else ""
      ["**Rating:** " ++ pyStr rating ++ "/5" ++ emoji_str ++ "\n"]
    else []
  let has_detailed := truthy char_rating || truthy plot_rating ||
    truthy writing_rating || truthy setting_rating
  let l5 :=
    if has_detailed then
      ["**Detailed Ratings:**\n"]
      ++ (if truthy char_rating then ["- Characters: " ++ pyStr char_rating ++ "/5\n"] else [])
      ++ (if truthy plot_rating then ["- Plot: " ++ pyStr plot_rating ++ "/5\n"] else [])
      ++ (if truthy writing_rating then ["- Writing Style: " ++ pyStr writing_rating ++ "/5\n"] else [])
      ++ (if truthy setting_rating then ["- Setting: " ++ pyStr setting_rating ++ "/5\n"] else [])
    else []
  let l6 ← joinedLine "**Genres:** " genres
  let l7 ← joinedLine "**Moods:** " moods
  let l8 ← joinedLine "**Tags:** " attributes
  let l9 :=
    if started ≠ "" ∨ finished ≠ "" then
      ["**Read Dates:** "]
      ++ (if started ≠ "" then ["Started " ++ started] else [])
      ++ (if finished ≠ "" then
            (if started ≠ "" then [" → Finished " ++ finished]
             else ["Finished " ++ finished])
          else [])
      ++ ["\n"]
    else []
  let l10 := if truthy review then ["\n**Review:**\n\n" ++ pyStr review ++ "\n"] else []
  pure (l1 ++ l2 ++ l3 ++ l4 ++ l5 ++ l6 ++ l7 ++ l8 ++ l9 ++ l10 ++ ["\n---\n"])

/-- Status groups in insertion order (the `by_status` dict,
src/exporters.py lines 391-399). -/
abbrev StatusGroups := List (Value × List Record)

def gLookup (g : StatusGroups) (k : Value) : Option (List Record) :=
  match g with
  | [] => Option.none
  | (l, rs) :: rest => if Value.beq l k then some rs else gLookup rest k

def gInsert (g : StatusGroups) (k : Value) (r : Record) : StatusGroups :=
  match g with
  | [] => [(k, [r])]
  | (l, rs) :: rest =>
    if Value.beq l k then (l, rs ++ [r]) :: rest else (l, rs) :: gInsert rest k r

/-- The grouping loop of `export_to_markdown` (lines 391-399): `None`
entries skipped, each book normalized, filed under its `status` value in
input order (`g` is the accumulated `by_status` dict). -/
def group_by_status_aux (g : StatusGroups) (books : List Value) :
    Except PyErr StatusGroups :=
  match books with
  | [] => .ok g
  | .none :: rest => group_by_status_aux g rest
  | b :: rest => do
    let nb ← normalize_book b
    group_by_status_aux (gInsert g (rgetD nb "status" (.str "unknown")) nb) rest

def group_by_status (books : List Value) : Except PyErr StatusGroups :=
  group_by_status_aux [] books

/-- The emitted section-header line of `export_to_markdown` (line 411)
for a canonical status present in the groups, `Option.none` otherwise. -/
def sectionHeaderOf (g : StatusGroups) (s : String) : Option String :=
  match gLookup g (.str s) with
  | some grp => some ("\n## " ++ statusLabel s ++ " (" ++ toString grp.length ++ ")\n")
  | Option.none => Option.none

/-- Concatenated `book_lines` of every book of one section. -/
def sectionBody (rs : List Record) : Except PyErr (List String) :=
  match rs with
  | [] => .ok []
  | r :: rest => do
    let ls ← book_lines r
    let more ← sectionBody rest
    pure (ls ++ more)

/-- The section-emission loop of `export_to_markdown` (lines 408-480):
only the three statuses of `status_order` are visited. -/
def mdSections (g : StatusGroups) (order : List String) : Except PyErr (List String) :=
  match order with
  | [] => .ok []
  | s :: rest =>
    match gLookup g (.str s) with
    | Option.none => mdSections g rest
    | some grp => do
      let body ← sectionBody grp
      let more ← mdSections g rest
      pure (("\n## " ++ statusLabel s ++ " (" ++ toString grp.length ++ ")\n") :: body ++ more)

def status_order : List String := ["finished", "reading", "unread"]

/-- All lines written by `export_to_markdown` (header block, lines
383-388, then the sections). -/
def markdownLines (now : String) (books : List Value) : Except PyErr (List String) := do
  let header :=
    [ "# My Fable Book Library\n",
      "Exported on: " ++ now ++ "\n",
      "Total books: " ++ toString books.length ++ "\n",
      "\n---\n" ]
  let g ← group_by_status books
  let secs ← mdSections g status_order
  pure (header ++ secs)

/-- Embedding of `export_to_markdown` (src/exporters.py lines 367-485): empty-input
check, mkdir, build all lines (normalization and joins can raise before
the file is opened), write. -/
def export_to_markdown (now : String) (books : List Value) (output_path : String) :
    List FsOp × Except PyErr String :=
  if books.isEmpty then
    ([], .error (.valueError "No books to export"))
  else
    match markdownLines now books with
    | .ok ls =>
      ([.mkdirParents output_path, .createFile output_path,
        .writeStr output_path (String.join ls)], .ok output_path)
    | .error e => ([.mkdirParents output_path], .error e)

/-- A Markdown section-header line: exactly the lines the export emits
with the `\n## ` prefix (no other emitted line template can start with
that prefix, whatever the interpolated values are). -/
def isSecHeader (l : String) : Bool :=
  match l.data with
  | c1 :: c2 :: c3 :: c4 :: _ => c1 = '\n' && c2 = '#' && c3 = '#' && c4 = ' '
  | _ => false

/-- Look up a rendered CSV cell by column label. -/
def rowCell (row : List (String × String)) (k : String) : Option String :=
  match row with
  | [] => Option.none
  | (l, v) :: rest => if l = k then some v else rowCell rest k

/-! ## Theorems -/

/-- Destructor for a successful `Except` bind. -/
theorem except_bind_ok {ε α β : Type} {x : Except ε α} {f : α → Except ε β} {b : β}
    (h : x >>= f = .ok b) : ∃ a, x = .ok a ∧ f a = .ok b := by
  cases x with
  | error e => simp [Bind.bind, Except.bind] at h
  | ok a => exact ⟨a, rfl, by simpa [Bind.bind, Except.bind] using h⟩

theorem merge_length_aux (books : List Value) (reviews : ReviewMap) :
    (merge_reviews_with_books books reviews).length = books.countP Value.isDict := by
  induction books with
  | nil => rfl
  | cons b rest ih =>
    cases b <;>
      simp [merge_reviews_with_books, List.countP_cons, Value.isDict, ih]

theorem merge_filter_aux (books : List Value) (reviews : ReviewMap) :
    merge_reviews_with_books books reviews =
      merge_reviews_with_books (books.filter Value.isDict) reviews := by
  induction books with
  | nil => rfl
  | cons b rest ih =>
    cases b <;>
      simp [merge_reviews_with_books, List.filter_cons, Value.isDict, ih]

theorem mergeOne_nil (book : Record) : mergeOne book [] = book := by
  unfold mergeOne
  cases h : rget book "book" <;> simp [reviewsLookup]

/-- C2: the output of `merge_reviews_with_books` has one element per
non-null mapping input element; in particular the output length equals the
input length when every element is a non-null mapping. -/
theorem c2_merge_length (books : List Value) (reviews : ReviewMap) :
    (merge_reviews_with_books books reviews).length = books.countP Value.isDict ∧
    ((∀ b ∈ books, Value.isDict b) →
      (merge_reviews_with_books books reviews).length = books.length) := by
  refine ⟨merge_length_aux books reviews, fun h => ?_⟩
  rw [merge_length_aux]
  exact List.countP_eq_length.mpr h

theorem c2_merge_length_witness :
    (∀ b ∈ [Value.dict [("title", Value.str "A")], Value.dict []], Value.isDict b) ∧
    (merge_reviews_with_books [Value.dict [("title", Value.str "A")], Value.dict []] []).length =
      [Value.dict [("title", Value.str "A")], Value.dict []].length :=
  ⟨by simp [List.forall_mem_cons, Value.isDict],
   (c2_merge_length [Value.dict [("title", Value.str "A")], Value.dict []] []).2
     (by simp [List.forall_mem_cons, Value.isDict])⟩

/-- C3 (counterexample): a `None` entry does NOT pass through to the
output of `merge_reviews_with_books`; it is dropped. -/
theorem c3_counterexample :
    ¬ (Value.none ∈ merge_reviews_with_books [Value.none] []) := by
  simp [merge_reviews_with_books]

/-- C3 (amended): `merge_reviews_with_books` is total (its per-record
`try` body performs no fallible operation, so the `except` fallback is
dead code) and every malformed entry (`None` or non-mapping) is skipped —
dropped from the output, not passed through — so the merge behaves as if
run on only the mapping-typed entries; one malformed entry cannot abort
the batch, but it does shrink the output. -/
theorem c3_merge_skips_malformed (books : List Value) (reviews : ReviewMap) :
    merge_reviews_with_books books reviews =
      merge_reviews_with_books (books.filter Value.isDict) reviews ∧
    (merge_reviews_with_books books reviews).length = books.countP Value.isDict :=
  ⟨merge_filter_aux books reviews, merge_length_aux books reviews⟩

/-- C8 (counterexample): merging an empty review lookup is NOT the
identity on every book list: a `None` element is dropped. -/
theorem c8_counterexample :
    merge_reviews_with_books [Value.none] [] ≠ [Value.none] := by
  simp [merge_reviews_with_books]

/-- C8 (amended): merging an empty review lookup into a book list whose
elements are all non-null mappings returns records equal to the input. -/
theorem c8_merge_empty_identity (books : List Value)
    (h : ∀ b ∈ books, Value.isDict b) :
    merge_reviews_with_books books [] = books := by
  induction books with
  | nil => rfl
  | cons b rest ih =>
    have hb := h b (List.mem_cons_self b rest)
    cases b with
    | dict kvs =>
      rw [merge_reviews_with_books, mergeOne_nil,
        ih (fun x hx => h x (List.mem_cons_of_mem _ hx))]
    | none => simp [Value.isDict] at hb
    | bool b => simp [Value.isDict] at hb
    | int n => simp [Value.isDict] at hb
    | float q => simp [Value.isDict] at hb
    | str s => simp [Value.isDict] at hb
    | list xs => simp [Value.isDict] at hb

theorem c8_merge_empty_identity_witness :
    (∀ b ∈ [Value.dict [("id", Value.str "b1"), ("title", Value.str "T")]], Value.isDict b) ∧
    merge_reviews_with_books [Value.dict [("id", Value.str "b1"), ("title", Value.str "T")]] [] =
      [Value.dict [("id", Value.str "b1"), ("title", Value.str "T")]] :=
  ⟨by simp [List.forall_mem_cons, Value.isDict],
   c8_merge_empty_identity [Value.dict [("id", Value.str "b1"), ("title", Value.str "T")]]
     (by simp [List.forall_mem_cons, Value.isDict])⟩

/-! ### Lemmas for the store-instrumented merger (C9) -/

theorem getD_append_left {α : Type} (l t : List α) (d : α) (i : Nat) (hi : i < l.length) :
    (l ++ t).getD i d = l.getD i d := by
  induction l generalizing i with
  | nil => simp at hi
  | cons x xs ih =>
    cases i with
    | zero => rfl
    | succ j => exact ih j (Nat.lt_of_succ_lt_succ hi)

theorem getD_concat_len {α : Type} (l : List α) (b d : α) :
    (l ++ [b]).getD l.length d = b := by
  induction l with
  | nil => rfl
  | cons x xs ih => exact ih

theorem set_append_len {α : Type} (l : List α) (b r : α) :
    (l ++ [b]).set l.length r = l ++ [r] := by
  induction l with
  | nil => rfl
  | cons x xs ih => simp [List.set, ih]

theorem merge_heap_step_extends (h : Heap) (e : HVal) (reviews : ReviewMap) :
    ∃ tail, (merge_heap_step h e reviews).1.cells = h.cells ++ tail := by
  cases e with
  | imm v => cases v <;> exact ⟨[], by simp [merge_heap_step]⟩
  | ref a =>
    simp only [merge_heap_step, Heap.alloc, Heap.write, Heap.read]
    split
    · exact ⟨[], by simp⟩
    · split
      · split
        · split
          · exact ⟨[Heap.read h a], rfl⟩
          · exact ⟨_, set_append_len h.cells (Heap.read h a) _⟩
        · exact ⟨[Heap.read h a], rfl⟩
      · exact ⟨[Heap.read h a], rfl⟩

theorem merge_heap_step_len (h : Heap) (e : HVal) (reviews : ReviewMap) :
    h.cells.length ≤ (merge_heap_step h e reviews).1.cells.length := by
  obtain ⟨t, ht⟩ := merge_heap_step_extends h e reviews
  simp [ht]

theorem merge_heap_extends (h : Heap) (books : List HVal) (reviews : ReviewMap) :
    ∃ tail, (merge_reviews_with_books_heap h books reviews).1.cells = h.cells ++ tail := by
  induction books generalizing h with
  | nil => exact ⟨[], by simp [merge_reviews_with_books_heap]⟩
  | cons e rest ih =>
    obtain ⟨t1, h1⟩ := merge_heap_step_extends h e reviews
    obtain ⟨t2, h2⟩ := ih (merge_heap_step h e reviews).1
    refine ⟨t1 ++ t2, ?_⟩
    show (merge_reviews_with_books_heap (merge_heap_step h e reviews).1 rest reviews).1.cells = _
    rw [h2, h1, List.append_assoc]

theorem toValue_ext (h h2 : Heap) (t : List Record) (hcells : h2.cells = h.cells ++ t)
    (x : HVal) (hx : ∀ a, x = HVal.ref a → a < h.cells.length) :
    HVal.toValue h2 x = HVal.toValue h x := by
  cases x with
  | imm v => rfl
  | ref a =>
    simp only [HVal.toValue, Heap.read]
    rw [hcells, getD_append_left _ _ _ _ (hx a rfl)]

theorem merge_heap_step_out (h : Heap) (e : HVal) (reviews : ReviewMap) (x : HVal)
    (hx : (merge_heap_step h e reviews).2 = some x) (a : Nat) (ha : x = HVal.ref a) :
    x = e ∨ h.cells.length ≤ a := by
  cases e with
  | imm v =>
    cases v <;> simp [merge_heap_step] at hx <;> simp [← hx] at ha
  | ref b =>
    simp only [merge_heap_step, Heap.alloc] at hx
    split at hx
    · exact .inl (by injection hx with hx; exact hx.symm)
    · refine .inr ?_
      injection hx with hx
      rw [ha] at hx
      injection hx with hx
      omega

theorem merge_heap_step_ref (h : Heap) (a : Nat) (reviews : ReviewMap) :
    merge_heap_step h (.ref a) reviews =
      (if (match rget (Heap.read h a) "book" with
           | .dict d => d
           | _ => Heap.read h a).isEmpty then (h, some (.ref a))
       else (⟨h.cells ++ [mergeOne (Heap.read h a) reviews]⟩,
             some (.ref h.cells.length))) := by
  simp only [merge_heap_step, mergeOne, Heap.alloc, Heap.write, Heap.read]
  split
  · rfl
  · split
    · split
      · split
        · rfl
        · rw [getD_concat_len, set_append_len]
      · rfl
    · rfl

theorem merge_heap_pres (h : Heap) (books : List HVal) (reviews : ReviewMap)
    (i : Nat) (hi : i < h.cells.length) :
    (merge_reviews_with_books_heap h books reviews).1.cells.getD i [] =
      h.cells.getD i [] := by
  obtain ⟨t, ht⟩ := merge_heap_extends h books reviews
  rw [ht, getD_append_left _ _ _ _ hi]

theorem merge_heap_fresh (h : Heap) (books : List HVal) (reviews : ReviewMap) :
    ∀ x ∈ (merge_reviews_with_books_heap h books reviews).2, ∀ a, x = HVal.ref a →
      x ∈ books ∨ h.cells.length ≤ a := by
  induction books generalizing h with
  | nil => intro x hx; simp [merge_reviews_with_books_heap] at hx
  | cons e rest ih =>
    intro x hx a hxa
    have hstep := merge_heap_step_len h e reviews
    simp only [merge_reviews_with_books_heap] at hx
    rcases hout : (merge_heap_step h e reviews).2 with _ | x0
    · rw [hout] at hx
      rcases ih (merge_heap_step h e reviews).1 x hx a hxa with hmem | hge
      · exact .inl (List.mem_cons_of_mem e hmem)
      · exact .inr (Nat.le_trans hstep hge)
    · rw [hout] at hx
      rcases List.mem_cons.mp hx with rfl | hx2
      · rcases merge_heap_step_out h e reviews x hout a hxa with rfl | hge
        · exact .inl (List.mem_cons_self _ _)
        · exact .inr hge
      · rcases ih (merge_heap_step h e reviews).1 x hx2 a hxa with hmem | hge
        · exact .inl (List.mem_cons_of_mem e hmem)
        · exact .inr (Nat.le_trans hstep hge)

theorem merge_heap_sim (h : Heap) (books : List HVal) (reviews : ReviewMap)
    (hwf : ∀ a, HVal.ref a ∈ books → a < h.cells.length) :
    (merge_reviews_with_books_heap h books reviews).2.map
        (HVal.toValue (merge_reviews_with_books_heap h books reviews).1) =
      merge_reviews_with_books (books.map (HVal.toValue h)) reviews := by
  induction books generalizing h with
  | nil => rfl
  | cons e rest ih =>
    have hwfr : ∀ a, HVal.ref a ∈ rest → a < h.cells.length :=
      fun a ha => hwf a (List.mem_cons_of_mem e ha)
    cases e with
    | imm v =>
      cases v with
      | dict kvs =>
        have htail := ih h hwfr
        simp only [merge_reviews_with_books_heap, merge_heap_step, List.map_cons,
          HVal.toValue, merge_reviews_with_books]
        rw [htail]
      | none =>
        have htail := ih h hwfr
        simpa only [merge_reviews_with_books_heap, merge_heap_step, List.map_cons,
          HVal.toValue, merge_reviews_with_books] using htail
      | bool b =>
        have htail := ih h hwfr
        simpa only [merge_reviews_with_books_heap, merge_heap_step, List.map_cons,
          HVal.toValue, merge_reviews_with_books] using htail
      | int n =>
        have htail := ih h hwfr
        simpa only [merge_reviews_with_books_heap, merge_heap_step, List.map_cons,
          HVal.toValue, merge_reviews_with_books] using htail
      | float q =>
        have htail := ih h hwfr
        simpa only [merge_reviews_with_books_heap, merge_heap_step, List.map_cons,
          HVal.toValue, merge_reviews_with_books] using htail
      | str s =>
        have htail := ih h hwfr
        simpa only [merge_reviews_with_books_heap, merge_heap_step, List.map_cons,
          HVal.toValue, merge_reviews_with_books] using htail
      | list xs =>
        have htail := ih h hwfr
        simpa only [merge_reviews_with_books_heap, merge_heap_step, List.map_cons,
          HVal.toValue, merge_reviews_with_books] using htail
    | ref a =>
      have ha : a < h.cells.length := hwf a (List.mem_cons_self _ _)
      by_cases hbe : (match rget (Heap.read h a) "book" with
          | .dict d => d
          | _ => Heap.read h a).isEmpty
      · have hstep : merge_heap_step h (.ref a) reviews = (h, some (.ref a)) := by
          rw [merge_heap_step_ref, if_pos hbe]
        have htail := ih h hwfr
        obtain ⟨t2, ht2⟩ := merge_heap_extends h rest reviews
        have hread : Heap.read (merge_reviews_with_books_heap h rest reviews).1 a =
            Heap.read h a := by
          simp only [Heap.read]
          rw [ht2, getD_append_left _ _ _ _ ha]
        have hmo : mergeOne (Heap.read h a) reviews = Heap.read h a := by
          unfold mergeOne
          rw [if_pos hbe]
        simp only [merge_reviews_with_books_heap, hstep, List.map_cons,
          merge_reviews_with_books, HVal.toValue]
        rw [hread, htail, hmo]
      · have hstep : merge_heap_step h (.ref a) reviews =
            (⟨h.cells ++ [mergeOne (Heap.read h a) reviews]⟩,
             some (.ref h.cells.length)) := by
          rw [merge_heap_step_ref, if_neg hbe]
        have hwfr2 : ∀ x, HVal.ref x ∈ rest →
            x < (⟨h.cells ++ [mergeOne (Heap.read h a) reviews]⟩ : Heap).cells.length := by
          intro x hx
          simp only [List.length_append, List.length_cons, List.length_nil]
          exact Nat.lt_of_lt_of_le (hwfr x hx) (Nat.le_add_right _ _)
        have htail := ih ⟨h.cells ++ [mergeOne (Heap.read h a) reviews]⟩ hwfr2
        obtain ⟨t2, ht2⟩ :=
          merge_heap_extends ⟨h.cells ++ [mergeOne (Heap.read h a) reviews]⟩ rest reviews
        have hread : Heap.read
            (merge_reviews_with_books_heap
              ⟨h.cells ++ [mergeOne (Heap.read h a) reviews]⟩ rest reviews).1
            h.cells.length = mergeOne (Heap.read h a) reviews := by
          simp only [Heap.read] at ht2 ⊢
          rw [ht2, getD_append_left _ _ _ _ (by simp), getD_concat_len]
        have hmaps :
            rest.map (HVal.toValue (⟨h.cells ++ [mergeOne (Heap.read h a) reviews]⟩ : Heap)) =
              rest.map (HVal.toValue h) :=
          List.map_congr_left (fun x hx =>
            toValue_ext h _ [mergeOne (Heap.read h a) reviews] rfl x
              (fun b hxb => hwfr b (hxb ▸ hx)))
        simp only [merge_reviews_with_books_heap, hstep, List.map_cons,
          merge_reviews_with_books, HVal.toValue]
        rw [hread, htail, hmaps]

/-- C9: over the explicit store, `merge_reviews_with_books` never mutates
its inputs and enriches only fresh records.  Conjunct 1: every
pre-existing cell (the input book records, with everything they reference)
is unchanged after the call; the books list itself and the review lookup
are pure values the function only reads.  Conjunct 2: every output
reference is either an input element passed through unchanged, or a fresh
address allocated by the call (`dict(book)`).  Conjunct 3: the run over
the store computes exactly the pure merger, whose per-record result is a
shallow copy of the input record with the review fields overlaid. -/
theorem c9_merge_no_mutation (h : Heap) (books : List HVal) (reviews : ReviewMap)
    (hwf : ∀ a, HVal.ref a ∈ books → a < h.cells.length) :
    (∀ i, i < h.cells.length →
      (merge_reviews_with_books_heap h books reviews).1.cells.getD i [] =
        h.cells.getD i []) ∧
    (∀ x ∈ (merge_reviews_with_books_heap h books reviews).2, ∀ a, x = HVal.ref a →
      x ∈ books ∨ h.cells.length ≤ a) ∧
    (merge_reviews_with_books_heap h books reviews).2.map
        (HVal.toValue (merge_reviews_with_books_heap h books reviews).1) =
      merge_reviews_with_books (books.map (HVal.toValue h)) reviews :=
  ⟨fun i hi => merge_heap_pres h books reviews i hi,
   merge_heap_fresh h books reviews,
   merge_heap_sim h books reviews hwf⟩

theorem c9_merge_no_mutation_witness :
    (∀ a, HVal.ref a ∈ [HVal.ref 0] →
      a < (⟨[[("id", Value.str "b1")]]⟩ : Heap).cells.length) ∧
    (merge_reviews_with_books_heap ⟨[[("id", Value.str "b1")]]⟩ [HVal.ref 0]
        [(Value.str "b1", [("rating", Value.int 5)])]).1.cells.getD 0 [] =
      [("id", Value.str "b1")] := by
  have hwf : ∀ a, HVal.ref a ∈ [HVal.ref 0] →
      a < (⟨[[("id", Value.str "b1")]]⟩ : Heap).cells.length := by
    intro a ha
    have h0 := List.mem_singleton.mp ha
    injection h0 with h0
    subst h0
    decide
  exact ⟨hwf,
    (c9_merge_no_mutation ⟨[[("id", Value.str "b1")]]⟩ [HVal.ref 0]
      [(Value.str "b1", [("rating", Value.int 5)])] hwf).1 0 (by decide)⟩

/-- C1 (failing input for the code bug): the spec promises that
`normalize_book` returns the full canonical record for every input, but
on a book whose `reading_progress` is a truthy non-mapping the code
raises `AttributeError`: line 80 guards the same object with
`isinstance(..., dict)` while lines 81-82 call `.get` on it unguarded. -/
theorem c1_normalize_book_raises :
    normalize_book (.dict [("reading_progress", .str "x")]) =
      .error (.attributeError "object has no attribute get") := rfl

/-- C6: each of the three exporters, given an empty books list, fails
with the distinguished "No books to export" error having performed no
filesystem operation at all (empty effect trace: no directory created,
no file opened or written). -/
theorem c6_empty_export_no_write (output_path now : String) :
    export_to_csv [] output_path =
      ([], .error (.valueError "No books to export")) ∧
    export_to_json [] output_path =
      ([], .error (.valueError "No books to export")) ∧
    export_to_markdown now [] output_path =
      ([], .error (.valueError "No books to export")) :=
  ⟨rfl, rfl, rfl⟩

/-! ### JSON rating emission (C10) -/

theorem except_pure_ok {ε α : Type} {a b : α}
    (h : (pure a : Except ε α) = .ok b) : a = b := by
  simpa [pure, Except.pure] using h

theorem pyFloat_ok_float (v w : Value) (h : pyFloat v = .ok w) :
    ∃ q, w = Value.float q := by
  cases v with
  | none => simp [pyFloat] at h
  | bool b => injection h with h; exact ⟨_, h.symm⟩
  | int n => injection h with h; exact ⟨_, h.symm⟩
  | float q => injection h with h; exact ⟨q, h.symm⟩
  | str s =>
    rcases hp : parseFloatStr s with _ | q <;> simp only [pyFloat, hp] at h
    · cases h
    · injection h with h; exact ⟨q, h.symm⟩
  | list xs => simp [pyFloat] at h
  | dict kvs => simp [pyFloat] at h

/-- C10: in the JSON export, the rating and each detailed rating is
emitted as a float exactly when the normalized value is truthy; every
falsy value — `None`, but also a numeric rating of `0` — is emitted as
JSON `null`, never as `0.0`. -/
theorem c10_json_rating_null (bookRaw : Value) (r cb : Record)
    (hn : normalize_book bookRaw = .ok r) (hc : clean_book bookRaw = .ok cb) :
    ((¬ truthy (rget r "rating")) → rget cb "rating" = Value.none) ∧
    (truthy (rget r "rating") → ∃ q, rget cb "rating" = Value.float q) ∧
    ∃ dr, rget cb "detailed_ratings" = Value.dict dr ∧
      (((¬ truthy (rget r "characters_rating")) → rget dr "characters" = Value.none) ∧
       (truthy (rget r "characters_rating") → ∃ q, rget dr "characters" = Value.float q)) ∧
      (((¬ truthy (rget r "plot_rating")) → rget dr "plot" = Value.none) ∧
       (truthy (rget r "plot_rating") → ∃ q, rget dr "plot" = Value.float q)) ∧
      (((¬ truthy (rget r "writing_style_rating")) → rget dr "writing_style" = Value.none) ∧
       (truthy (rget r "writing_style_rating") → ∃ q, rget dr "writing_style" = Value.float q)) ∧
      (((¬ truthy (rget r "setting_rating")) → rget dr "setting" = Value.none) ∧
       (truthy (rget r "setting_rating") → ∃ q, rget dr "setting" = Value.float q)) := by
  simp only [clean_book] at hc
  obtain ⟨book, hb, hc⟩ := except_bind_ok hc
  rw [hn] at hb
  injection hb with hb
  subst hb
  obtain ⟨p, hp, hc⟩ := except_bind_ok hc
  obtain ⟨austr, hau, hc⟩ := except_bind_ok hc
  obtain ⟨rating, hrat, hc⟩ := except_bind_ok hc
  obtain ⟨chars, hch, hc⟩ := except_bind_ok hc
  obtain ⟨plotv, hpl, hc⟩ := except_bind_ok hc
  obtain ⟨ws, hws, hc⟩ := except_bind_ok hc
  obtain ⟨st, hst, hc⟩ := except_bind_ok hc
  have hcb := except_pure_ok hc
  subst hcb
  refine ⟨?_, ?_, ?_⟩
  · intro hfalse
    show rating = Value.none
    rw [jsonRatingField, if_neg hfalse] at hrat
    exact (except_pure_ok hrat).symm
  · intro htrue
    rw [jsonRatingField, if_pos htrue] at hrat
    obtain ⟨q, hq⟩ := pyFloat_ok_float _ _ hrat
    exact ⟨q, show rating = Value.float q from hq⟩
  · refine ⟨[("characters", chars), ("plot", plotv), ("writing_style", ws), ("setting", st)],
      rfl, ⟨?_, ?_⟩, ⟨?_, ?_⟩, ⟨?_, ?_⟩, ⟨?_, ?_⟩⟩
    · intro hfalse
      rw [jsonRatingField, if_neg hfalse] at hch
      exact (except_pure_ok hch).symm
    · intro htrue
      rw [jsonRatingField, if_pos htrue] at hch
      exact pyFloat_ok_float _ _ hch
    · intro hfalse
      rw [jsonRatingField, if_neg hfalse] at hpl
      exact (except_pure_ok hpl).symm
    · intro htrue
      rw [jsonRatingField, if_pos htrue] at hpl
      exact pyFloat_ok_float _ _ hpl
    · intro hfalse
      rw [jsonRatingField, if_neg hfalse] at hws
      exact (except_pure_ok hws).symm
    · intro htrue
      rw [jsonRatingField, if_pos htrue] at hws
      exact pyFloat_ok_float _ _ hws
    · intro hfalse
      rw [jsonRatingField, if_neg hfalse] at hst
      exact (except_pure_ok hst).symm
    · intro htrue
      rw [jsonRatingField, if_pos htrue] at hst
      exact pyFloat_ok_float _ _ hst

theorem c10_json_rating_null_witness :
    (¬ truthy (Value.int 0)) ∧
    rget
      [ ("title", Value.none), ("subtitle", Value.str ""), ("authors", Value.str ""),
        ("isbn10", Value.str ""), ("isbn13", Value.str ""), ("publisher", Value.none),
        ("pages", Value.none), ("published_date", Value.str ""),
        ("description", Value.str ""), ("cover_image", Value.str ""),
        ("genres", Value.list []), ("moods", Value.list []),
        ("content_warnings", Value.list []), ("status", Value.none),
        ("rating", Value.none),
        ("detailed_ratings", Value.dict
          [ ("characters", Value.none), ("plot", Value.none),
            ("writing_style", Value.none), ("setting", Value.none) ]),
        ("review", Value.str ""),
        ("review_summary", Value.dict
          [ ("liked", Value.none), ("disliked", Value.none), ("disagreed", Value.none) ]),
        ("contains_spoilers", Value.none), ("did_not_finish", Value.none),
        ("attributes", Value.list []), ("emoji_reaction", Value.str ""),
        ("spicy_level", Value.none), ("started_reading", Value.str ""),
        ("finished_reading", Value.str ""), ("current_page", Value.none),
        ("total_pages", Value.none), ("date_added", Value.str "") ]
      "rating" = Value.none :=
  ⟨by decide,
   (c10_json_rating_null (Value.dict [("rating", Value.int 0)])
      [ ("title", Value.none), ("subtitle", Value.str ""), ("authors", Value.list []),
        ("isbn", Value.none), ("imprint", Value.none), ("page_count", Value.none),
        ("published_date", Value.none), ("description", Value.str ""),
        ("cover_image", Value.str ""), ("genres", Value.list []),
        ("storygraph_genres", Value.list []), ("moods", Value.list []),
        ("content_warnings", Value.list []), ("status", Value.none),
        ("rating", Value.int 0), ("review", Value.str ""),
        ("review_summary_liked", Value.none), ("review_summary_disliked", Value.none),
        ("review_summary_disagreed", Value.none), ("contains_spoilers", Value.none),
        ("did_not_finish", Value.none), ("review_created_at", Value.none),
        ("added_at", Value.none), ("started_reading_at", Value.str ""),
        ("finished_reading_at", Value.str ""), ("current_page", Value.none),
        ("total_pages", Value.none), ("characters_rating", Value.none),
        ("plot_rating", Value.none), ("writing_style_rating", Value.none),
        ("setting_rating", Value.none), ("attributes", Value.list []),
        ("emoji_reaction", Value.str ""), ("spicy_level", Value.none) ]
      [ ("title", Value.none), ("subtitle", Value.str ""), ("authors", Value.str ""),
        ("isbn10", Value.str ""), ("isbn13", Value.str ""), ("publisher", Value.none),
        ("pages", Value.none), ("published_date", Value.str ""),
        ("description", Value.str ""), ("cover_image", Value.str ""),
        ("genres", Value.list []), ("moods", Value.list []),
        ("content_warnings", Value.list []), ("status", Value.none),
        ("rating", Value.none),
        ("detailed_ratings", Value.dict
          [ ("characters", Value.none), ("plot", Value.none),
            ("writing_style", Value.none), ("setting", Value.none) ]),
        ("review", Value.str ""),
        ("review_summary", Value.dict
          [ ("liked", Value.none), ("disliked", Value.none), ("disagreed", Value.none) ]),
        ("contains_spoilers", Value.none), ("did_not_finish", Value.none),
        ("attributes", Value.list []), ("emoji_reaction", Value.str ""),
        ("spicy_level", Value.none), ("started_reading", Value.str ""),
        ("finished_reading", Value.str ""), ("current_page", Value.none),
        ("total_pages", Value.none), ("date_added", Value.str "") ]
      rfl rfl).1 (by decide)⟩

/-! ### CSV cell rendering (C7) -/

theorem csvCell_none (r : Record) (k : String) (h : rget r k = Value.none) :
    csvCell (rgetD r k (.str "")) = "" := by
  rcases hl : rlookup r k with _ | v
  · simp [rgetD, hl, csvCell]
  · have hv : v = Value.none := by simpa [rget, hl] using h
    simp [rgetD, hl, hv, csvCell]

/-- C7 (counterexample): a missing boolean field does NOT render as an
empty cell: `normalize_book({})` has `contains_spoilers = None` and the
CSV row renders it as the literal string `No`. -/
theorem c7_counterexample :
    (build_csv_row (Value.dict [])).map (fun row => rowCell row "Contains Spoilers") =
      .ok (some "No") ∧ (some "No" : Option String) ≠ some "" :=
  ⟨rfl, by decide⟩

/-- C7 (amended): in the CSV export the boolean fields render as `Yes`
when truthy and `No` otherwise — including when the value is absent —
list-valued fields are joined with `"; "`, and a missing (`None`) value
of the non-boolean fields renders as an empty cell. -/
theorem c7_csv_row_rendering (bookRaw : Value) (r : Record)
    (row : List (String × String))
    (hn : normalize_book bookRaw = .ok r)
    (hrow : build_csv_row bookRaw = .ok row) :
    rowCell row "Contains Spoilers" =
      some (if truthy (rget r "contains_spoilers") then "Yes" else "No") ∧
    rowCell row "Did Not Finish" =
      some (if truthy (rget r "did_not_finish") then "Yes" else "No") ∧
    (∀ j, pyJoinV "; " (rgetD r "genres" (.list [])) = .ok j →
      rowCell row "Genres" = some j) ∧
    (∀ j, pyJoinV "; " (rgetD r "moods" (.list [])) = .ok j →
      rowCell row "Moods" = some j) ∧
    (∀ j, pyJoinV "; " (rgetD r "content_warnings" (.list [])) = .ok j →
      rowCell row "Content Warnings" = some j) ∧
    (∀ j, pyJoinV "; " (rgetD r "attributes" (.list [])) = .ok j →
      rowCell row "Attributes/Tags" = some j) ∧
    (rget r "title" = Value.none → rowCell row "Title" = some "") ∧
    (rget r "rating" = Value.none → rowCell row "Rating" = some "") ∧
    (rget r "page_count" = Value.none → rowCell row "Pages" = some "") ∧
    (rget r "status" = Value.none → rowCell row "Status" = some "") ∧
    (rget r "isbn" = Value.none →
      rowCell row "ISBN-10" = some "" ∧ rowCell row "ISBN-13" = some "") ∧
    (rget r "published_date" = Value.none →
      rowCell row "Published Date" = some "") := by
  simp only [build_csv_row] at hrow
  obtain ⟨book, hb, hrow⟩ := except_bind_ok hrow
  rw [hn] at hb
  injection hb with hb
  subst hb
  obtain ⟨p, hp, hrow⟩ := except_bind_ok hrow
  obtain ⟨austr, hau, hrow⟩ := except_bind_ok hrow
  obtain ⟨gs, hg, hrow⟩ := except_bind_ok hrow
  obtain ⟨ms, hm, hrow⟩ := except_bind_ok hrow
  obtain ⟨cs, hcw, hrow⟩ := except_bind_ok hrow
  obtain ⟨as2, hat, hrow⟩ := except_bind_ok hrow
  have hr := except_pure_ok hrow
  subst hr
  refine ⟨rfl, rfl, ?_, ?_, ?_, ?_, ?_, ?_, ?_, ?_, ?_, ?_⟩
  · intro j hj
    rw [hg] at hj
    injection hj with hj
    show some gs = some j
    rw [hj]
  · intro j hj
    rw [hm] at hj
    injection hj with hj
    show some ms = some j
    rw [hj]
  · intro j hj
    rw [hcw] at hj
    injection hj with hj
    show some cs = some j
    rw [hj]
  · intro j hj
    rw [hat] at hj
    injection hj with hj
    show some as2 = some j
    rw [hj]
  · intro h
    show some (csvCell (rgetD r "title" (.str ""))) = some ""
    rw [csvCell_none r "title" h]
  · intro h
    show some (csvCell (rgetD r "rating" (.str ""))) = some ""
    rw [csvCell_none r "rating" h]
  · intro h
    show some (csvCell (rgetD r "page_count" (.str ""))) = some ""
    rw [csvCell_none r "page_count" h]
  · intro h
    show some (csvCell (rgetD r "status" (.str ""))) = some ""
    rw [csvCell_none r "status" h]
  · intro h
    rw [h] at hp
    have hp0 : (("" : String), ("" : String)) = p := by
      simpa [extract_isbn, truthy] using hp
    exact ⟨by show some p.1 = some ""; rw [← hp0], by show some p.2 = some ""; rw [← hp0]⟩
  · intro h
    show some (format_date (rget r "published_date")) = some ""
    rw [h]
    rfl

theorem c7_csv_row_rendering_witness :
    rget canonicalEmpty "rating" = Value.none ∧
    rowCell
      [ ("Title", ""), ("Subtitle", ""), ("Author(s)", ""), ("ISBN-10", ""),
        ("ISBN-13", ""), ("Publisher", ""), ("Pages", ""), ("Published Date", ""),
        ("Genres", ""), ("Moods", ""), ("Content Warnings", ""), ("Status", ""),
        ("Rating", ""), ("Characters Rating", ""), ("Plot Rating", ""),
        ("Writing Style Rating", ""), ("Setting Rating", ""), ("Review", ""),
        ("Review Summary - Liked", ""), ("Review Summary - Disliked", ""),
        ("Review Summary - Disagreed", ""), ("Attributes/Tags", ""),
        ("Emoji Reaction", ""), ("Contains Spoilers", "No"), ("Did Not Finish", "No"),
        ("Started Reading", ""), ("Finished Reading", ""), ("Date Added", "") ]
      "Rating" = some "" :=
  ⟨rfl,
   (c7_csv_row_rendering (Value.dict []) canonicalEmpty
      [ ("Title", ""), ("Subtitle", ""), ("Author(s)", ""), ("ISBN-10", ""),
        ("ISBN-13", ""), ("Publisher", ""), ("Pages", ""), ("Published Date", ""),
        ("Genres", ""), ("Moods", ""), ("Content Warnings", ""), ("Status", ""),
        ("Rating", ""), ("Characters Rating", ""), ("Plot Rating", ""),
        ("Writing Style Rating", ""), ("Setting Rating", ""), ("Review", ""),
        ("Review Summary - Liked", ""), ("Review Summary - Disliked", ""),
        ("Review Summary - Disagreed", ""), ("Attributes/Tags", ""),
        ("Emoji Reaction", ""), ("Contains Spoilers", "No"), ("Did Not Finish", "No"),
        ("Started Reading", ""), ("Finished Reading", ""), ("Date Added", "") ]
      rfl rfl).2.2.2.2.2.2.2.1 rfl⟩

/-! ### Field sources under a nested `book` mapping (C5) -/

/-- C5 (counterexample): `started_reading_at` is a reading-state field,
yet it is read from the NESTED mapping, not the outer record: with both
present, the nested value wins and the outer value is ignored. -/
theorem c5_counterexample :
    (normalize_book (.dict
      [ ("book", .dict [("title", .str "T"), ("started_reading_at", .str "2020-01-01")]),
        ("started_reading_at", .str "2021-02-02") ])).map
      (fun r => rget r "started_reading_at") = .ok (.str "2020-01-01") ∧
    Value.str "2020-01-01" ≠ Value.str "2021-02-02" :=
  ⟨rfl, by intro h; injection h with h; exact absurd h (by decide)⟩

/-- C5 (amended): with a nested mapping under `book`, the book-intrinsic
fields (title, dates, ...) are read primarily from the nested mapping,
and the review fields (rating, review text, contains_spoilers,
did_not_finish, detailed ratings) from the outer record — but the
reading-state fields are NOT read from the outer record: status,
current_page and total_pages come from the nested mapping's
`reading_progress` sub-mapping (status falling back to the outer record
when falsy there), and started_reading_at / finished_reading_at come from
the nested mapping only. -/
theorem c5_field_sources (b nested rp r : Record)
    (hb : rlookup b "book" = some (Value.dict nested))
    (hrp : pyOr (rget nested "reading_progress") (Value.dict []) = Value.dict rp)
    (hn : normalize_book (Value.dict b) = .ok r) :
    rget r "title" = pyOr (rget nested "title") (rget b "title") ∧
    rget r "published_date" =
      pyOr (pyOr (rget nested "published_date") (rget nested "publish_date"))
        (rget b "published_date") ∧
    rget r "rating" = rget b "rating" ∧
    rget r "review" = pyOr (rget b "review") (Value.str "") ∧
    rget r "contains_spoilers" = rget b "contains_spoilers" ∧
    rget r "did_not_finish" = rget b "did_not_finish" ∧
    rget r "characters_rating" = rget b "characters_rating" ∧
    rget r "status" = pyOr (rget rp "status") (rget b "status") ∧
    rget r "current_page" = rget rp "current_page" ∧
    rget r "total_pages" = rget rp "page_count" ∧
    rget r "started_reading_at" = pyOr (rget nested "started_reading_at") (Value.str "") ∧
    rget r "finished_reading_at" = pyOr (rget nested "finished_reading_at") (Value.str "") := by
  have hb2 : rget b "book" = Value.dict nested := by simp [rget, hb]
  have hne : ¬ (b.isEmpty = true) := by
    cases b with
    | nil => simp [rlookup] at hb
    | cons x xs => simp [List.isEmpty]
  simp only [normalize_book] at hn
  rw [if_neg hne] at hn
  simp only [hb2] at hn
  obtain ⟨g, hg, hn⟩ := except_bind_ok hn
  obtain ⟨cp, hcp, hn⟩ := except_bind_ok hn
  obtain ⟨tp, htp, hn⟩ := except_bind_ok hn
  obtain ⟨er, her, hn⟩ := except_bind_ok hn
  have hr := except_pure_ok hn
  subst hr
  rw [hrp] at hcp htp
  simp only [vgetE] at hcp htp
  injection hcp with hcp
  injection htp with htp
  have hst : getIfDict (pyOr (rget nested "reading_progress") (Value.dict [])) "status" =
      rget rp "status" := by rw [hrp]; rfl
  refine ⟨rfl, rfl, rfl, rfl, rfl, rfl, rfl, ?_, ?_, ?_, rfl, rfl⟩
  · show pyOr (getIfDict (pyOr (rget nested "reading_progress") (Value.dict [])) "status")
      (rget b "status") = pyOr (rget rp "status") (rget b "status")
    rw [hst]
  · show cp = rget rp "current_page"
    exact hcp.symm
  · show tp = rget rp "page_count"
    exact htp.symm

theorem c5_field_sources_witness :
    rlookup
      [ ("book", Value.dict
          [ ("title", Value.str "T"),
            ("reading_progress", Value.dict [("current_page", Value.int 42)]),
            ("started_reading_at", Value.str "2020-01-01") ]),
        ("rating", Value.int 4), ("status", Value.str "finished"),
        ("started_reading_at", Value.str "2021-02-02") ] "book" =
      some (Value.dict
        [ ("title", Value.str "T"),
          ("reading_progress", Value.dict [("current_page", Value.int 42)]),
          ("started_reading_at", Value.str "2020-01-01") ]) ∧
    rget
      [ ("title", Value.str "T"), ("subtitle", Value.str ""),
        ("authors", Value.list []), ("isbn", Value.none), ("imprint", Value.none),
        ("page_count", Value.none), ("published_date", Value.none),
        ("description", Value.str ""), ("cover_image", Value.str ""),
        ("genres", Value.list []), ("storygraph_genres", Value.list []),
        ("moods", Value.list []), ("content_warnings", Value.list []),
        ("status", Value.str "finished"), ("rating", Value.int 4),
        ("review", Value.str ""), ("review_summary_liked", Value.none),
        ("review_summary_disliked", Value.none), ("review_summary_disagreed", Value.none),
        ("contains_spoilers", Value.none), ("did_not_finish", Value.none),
        ("review_created_at", Value.none), ("added_at", Value.none),
        ("started_reading_at", Value.str "2020-01-01"),
        ("finished_reading_at", Value.str ""), ("current_page", Value.int 42),
        ("total_pages", Value.none), ("characters_rating", Value.none),
        ("plot_rating", Value.none), ("writing_style_rating", Value.none),
        ("setting_rating", Value.none), ("attributes", Value.list []),
        ("emoji_reaction", Value.str ""), ("spicy_level", Value.none) ]
      "started_reading_at" = Value.str "2020-01-01" :=
  ⟨rfl,
   (c5_field_sources
      [ ("book", Value.dict
          [ ("title", Value.str "T"),
            ("reading_progress", Value.dict [("current_page", Value.int 42)]),
            ("started_reading_at", Value.str "2020-01-01") ]),
        ("rating", Value.int 4), ("status", Value.str "finished"),
        ("started_reading_at", Value.str "2021-02-02") ]
      [ ("title", Value.str "T"),
        ("reading_progress", Value.dict [("current_page", Value.int 42)]),
        ("started_reading_at", Value.str "2020-01-01") ]
      [ ("current_page", Value.int 42) ]
      [ ("title", Value.str "T"), ("subtitle", Value.str ""),
        ("authors", Value.list []), ("isbn", Value.none), ("imprint", Value.none),
        ("page_count", Value.none), ("published_date", Value.none),
        ("description", Value.str ""), ("cover_image", Value.str ""),
        ("genres", Value.list []), ("storygraph_genres", Value.list []),
        ("moods", Value.list []), ("content_warnings", Value.list []),
        ("status", Value.str "finished"), ("rating", Value.int 4),
        ("review", Value.str ""), ("review_summary_liked", Value.none),
        ("review_summary_disliked", Value.none), ("review_summary_disagreed", Value.none),
        ("contains_spoilers", Value.none), ("did_not_finish", Value.none),
        ("review_created_at", Value.none), ("added_at", Value.none),
        ("started_reading_at", Value.str "2020-01-01"),
        ("finished_reading_at", Value.str ""), ("current_page", Value.int 42),
        ("total_pages", Value.none), ("characters_rating", Value.none),
        ("plot_rating", Value.none), ("writing_style_rating", Value.none),
        ("setting_rating", Value.none), ("attributes", Value.list []),
        ("emoji_reaction", Value.str ""), ("spicy_level", Value.none) ]
      rfl rfl rfl).2.2.2.2.2.2.2.2.2.2.1⟩

/-! ### Markdown section structure (C4) -/

theorem isSecHeader_false_head (c : Char) (cs : List Char) (l : String)
    (hl : l.data = c :: cs) (hc : ¬ c = '\n') : isSecHeader l = false := by
  unfold isSecHeader
  rw [hl]
  cases cs with
  | nil => rfl
  | cons c2 cs2 =>
    cases cs2 with
    | nil => rfl
    | cons c3 cs3 =>
      cases cs3 with
      | nil => rfl
      | cons c4 cs4 => simp [hc]

theorem isSecHeader_of_header (lbl : String) (n : Nat) :
    isSecHeader ("\n## " ++ lbl ++ " (" ++ toString n ++ ")\n") = true := by
  simp [isSecHeader, String.data_append]

theorem joinedLine_mem (pre : String) (xs : Value) (ls : List String) (l : String)
    (h : joinedLine pre xs = .ok ls) (hl : l ∈ ls) : ∃ j, l = pre ++ j ++ "\n" := by
  rw [joinedLine] at h
  split at h
  · obtain ⟨j, hj, h⟩ := except_bind_ok h
    have h2 := except_pure_ok h
    subst h2
    exact ⟨j, List.mem_singleton.mp hl⟩
  · have h2 := except_pure_ok h
    subst h2
    exact absurd hl (List.not_mem_nil l)

theorem book_lines_no_header (r : Record) (ls : List String)
    (h : book_lines r = .ok ls) :
    ∀ l ∈ ls, isSecHeader l = false := by
  simp only [book_lines] at h
  obtain ⟨austr, hau, h⟩ := except_bind_ok h
  obtain ⟨l6, h6, h⟩ := except_bind_ok h
  obtain ⟨l7, h7, h⟩ := except_bind_ok h
  obtain ⟨l8, h8, h⟩ := except_bind_ok h
  have hls := except_pure_ok h
  subst hls
  intro l hl
  simp only [List.mem_append, List.mem_singleton] at hl
  rcases hl with (((((((((h1 | h2) | h3) | h4) | h5) | hG) | hM) | hT) | h9) | h10) | hEnd
  · rw [h1]; simp [isSecHeader, String.data_append]
  · split at h2
    · have h2s := List.mem_singleton.mp h2
      refine isSecHeader_false_head '*'
        ((pyStr (rgetD r "subtitle" (.str ""))).data ++ "*\n\n".data) l ?_ (by decide)
      rw [h2s]
      simp [String.data_append]
    · exact absurd h2 (List.not_mem_nil l)
  · split at h3
    · rw [List.mem_singleton.mp h3]; simp [isSecHeader, String.data_append]
    · exact absurd h3 (List.not_mem_nil l)
  · split at h4
    · rw [List.mem_singleton.mp h4]; simp [isSecHeader, String.data_append]
    · exact absurd h4 (List.not_mem_nil l)
  · split at h5
    · simp only [List.mem_append] at h5
      rcases h5 with (((h5a | h5b) | h5c) | h5d) | h5e
      · rw [List.mem_singleton.mp h5a]; decide
      · split at h5b
        · rw [List.mem_singleton.mp h5b]; simp [isSecHeader, String.data_append]
        · exact absurd h5b (List.not_mem_nil l)
      · split at h5c
        · rw [List.mem_singleton.mp h5c]; simp [isSecHeader, String.data_append]
        · exact absurd h5c (List.not_mem_nil l)
      · split at h5d
        · rw [List.mem_singleton.mp h5d]; simp [isSecHeader, String.data_append]
        · exact absurd h5d (List.not_mem_nil l)
      · split at h5e
        · rw [List.mem_singleton.mp h5e]; simp [isSecHeader, String.data_append]
        · exact absurd h5e (List.not_mem_nil l)
    · exact absurd h5 (List.not_mem_nil l)
  · obtain ⟨j, hj⟩ := joinedLine_mem _ _ _ _ h6 hG
    rw [hj]; simp [isSecHeader, String.data_append]
  · obtain ⟨j, hj⟩ := joinedLine_mem _ _ _ _ h7 hM
    rw [hj]; simp [isSecHeader, String.data_append]
  · obtain ⟨j, hj⟩ := joinedLine_mem _ _ _ _ h8 hT
    rw [hj]; simp [isSecHeader, String.data_append]
  · split at h9
    · simp only [List.mem_append] at h9
      rcases h9 with ((h9a | h9b) | h9c) | h9d
      · rw [List.mem_singleton.mp h9a]; decide
      · split at h9b
        · rw [List.mem_singleton.mp h9b]; simp [isSecHeader, String.data_append]
        · exact absurd h9b (List.not_mem_nil l)
      · split at h9c
        · split at h9c
          · rw [List.mem_singleton.mp h9c]; simp [isSecHeader, String.data_append]
          · rw [List.mem_singleton.mp h9c]; simp [isSecHeader, String.data_append]
        · exact absurd h9c (List.not_mem_nil l)
      · rw [List.mem_singleton.mp h9d]; decide
    · exact absurd h9 (List.not_mem_nil l)
  · split at h10
    · rw [List.mem_singleton.mp h10]; simp [isSecHeader, String.data_append]
    · exact absurd h10 (List.not_mem_nil l)
  · rw [hEnd]; decide

theorem sectionBody_filter_nil (rs : List Record) (ls : List String)
    (h : sectionBody rs = .ok ls) : ls.filter isSecHeader = [] := by
  induction rs generalizing ls with
  | nil =>
    simp only [sectionBody] at h
    injection h with h
    rw [← h]
    rfl
  | cons r rest ih =>
    simp only [sectionBody] at h
    obtain ⟨bl, hbl, h⟩ := except_bind_ok h
    obtain ⟨more, hmore, h⟩ := except_bind_ok h
    have h2 := except_pure_ok h
    subst h2
    rw [List.filter_append, ih more hmore]
    have hb : bl.filter isSecHeader = [] :=
      List.filter_eq_nil_iff.mpr (fun a ha => by simp [book_lines_no_header r bl hbl a ha])
    rw [hb]
    rfl

theorem mdSections_filter (g : StatusGroups) (order : List String) (ls : List String)
    (h : mdSections g order = .ok ls) :
    ls.filter isSecHeader = order.filterMap (sectionHeaderOf g) := by
  induction order generalizing ls with
  | nil =>
    simp only [mdSections] at h
    injection h with h
    rw [← h]
    rfl
  | cons s rest ih =>
    simp only [mdSections] at h
    rcases hg : gLookup g (.str s) with _ | grp
    · rw [hg] at h
      simp only [List.filterMap_cons, sectionHeaderOf, hg]
      exact ih ls h
    · rw [hg] at h
      obtain ⟨body, hbody, h⟩ := except_bind_ok h
      obtain ⟨more, hmore, h⟩ := except_bind_ok h
      have h2 := except_pure_ok h
      subst h2
      have hb : body.filter isSecHeader = [] := sectionBody_filter_nil grp body hbody
      simp only [List.filter_cons, List.filter_append, isSecHeader_of_header, if_pos,
        List.filterMap_cons, sectionHeaderOf, hg, hb, ih more hmore]
      rfl

/-- C4 (counterexample): a book whose status is a non-canonical value
(`"abandoned"`) does NOT get its own title-cased section after the three
canonical ones — the export emits no section at all for it and the book
is omitted from the document entirely (the output is exactly the header
block). -/
theorem c4_counterexample :
    markdownLines "2026-02-03 00:00:00"
      [.dict [("status", .str "abandoned"), ("title", .str "X")]] =
    .ok [ "# My Fable Book Library\n", "Exported on: 2026-02-03 00:00:00\n",
          "Total books: 1\n", "\n---\n" ] := rfl

/-- C4 (amended): the Markdown export emits exactly one section per
non-empty canonical status group, in the fixed order `finished`,
`reading`, `unread`; books with any other (or absent) status value are
grouped but no section is ever emitted for them (the section loop visits
only `status_order`), so they are omitted from the document. -/
theorem c4_markdown_sections (now : String) (books : List Value)
    (g : StatusGroups) (ls : List String)
    (hg : group_by_status books = .ok g)
    (hl : markdownLines now books = .ok ls) :
    ls.filter isSecHeader = status_order.filterMap (sectionHeaderOf g) := by
  simp only [markdownLines] at hl
  obtain ⟨g2, hg2, hl⟩ := except_bind_ok hl
  rw [hg] at hg2
  injection hg2 with hg2
  subst hg2
  obtain ⟨secs, hsecs, hl⟩ := except_bind_ok hl
  have h2 := except_pure_ok hl
  subst h2
  rw [List.filter_append]
  have e1 : isSecHeader "# My Fable Book Library\n" = false := by decide
  have e2 : isSecHeader ("Exported on: " ++ now ++ "\n") = false := by
    simp [isSecHeader, String.data_append]
  have e3 : isSecHeader ("Total books: " ++ toString books.length ++ "\n") = false := by
    simp [isSecHeader, String.data_append]
  have e4 : isSecHeader "\n---\n" = false := by decide
  simp only [List.filter_cons, e1, e2, e3, e4, Bool.false_eq_true, if_false,
    List.filter_nil, List.nil_append]
  exact mdSections_filter g status_order secs hsecs

theorem c4_markdown_sections_witness :
    group_by_status [.dict [("status", .str "finished")]] =
      .ok [(Value.str "finished",
        [[ ("title", Value.none), ("subtitle", Value.str ""),
           ("authors", Value.list []), ("isbn", Value.none), ("imprint", Value.none),
           ("page_count", Value.none), ("published_date", Value.none),
           ("description", Value.str ""), ("cover_image", Value.str ""),
           ("genres", Value.list []), ("storygraph_genres", Value.list []),
           ("moods", Value.list []), ("content_warnings", Value.list []),
           ("status", Value.str "finished"), ("rating", Value.none),
           ("review", Value.str ""), ("review_summary_liked", Value.none),
           ("review_summary_disliked", Value.none), ("review_summary_disagreed", Value.none),
           ("contains_spoilers", Value.none), ("did_not_finish", Value.none),
           ("review_created_at", Value.none), ("added_at", Value.none),
           ("started_reading_at", Value.str ""), ("finished_reading_at", Value.str ""),
           ("current_page", Value.none), ("total_pages", Value.none),
           ("characters_rating", Value.none), ("plot_rating", Value.none),
           ("writing_style_rating", Value.none), ("setting_rating", Value.none),
           ("attributes", Value.list []), ("emoji_reaction", Value.str ""),
           ("spicy_level", Value.none) ]])] ∧
    [ "# My Fable Book Library\n", "Exported on: t\n", "Total books: 1\n", "\n---\n",
      "\n## Finished (1)\n", "### None\n", "\n---\n" ].filter isSecHeader =
      ["\n## Finished (1)\n"] :=
  ⟨rfl,
   c4_markdown_sections "t" [.dict [("status", .str "finished")]]
     [(Value.str "finished",
        [[ ("title", Value.none), ("subtitle", Value.str ""),
           ("authors", Value.list []), ("isbn", Value.none), ("imprint", Value.none),
           ("page_count", Value.none), ("published_date", Value.none),
           ("description", Value.str ""), ("cover_image", Value.str ""),
           ("genres", Value.list []), ("storygraph_genres", Value.list []),
           ("moods", Value.list []), ("content_warnings", Value.list []),
           ("status", Value.str "finished"), ("rating", Value.none),
           ("review", Value.str ""), ("review_summary_liked", Value.none),
           ("review_summary_disliked", Value.none), ("review_summary_disagreed", Value.none),
           ("contains_spoilers", Value.none), ("did_not_finish", Value.none),
           ("review_created_at", Value.none), ("added_at", Value.none),
           ("started_reading_at", Value.str ""), ("finished_reading_at", Value.str ""),
           ("current_page", Value.none), ("total_pages", Value.none),
           ("characters_rating", Value.none), ("plot_rating", Value.none),
           ("writing_style_rating", Value.none), ("setting_rating", Value.none),
           ("attributes", Value.list []), ("emoji_reaction", Value.str ""),
           ("spicy_level", Value.none) ]])]
     [ "# My Fable Book Library\n", "Exported on: t\n", "Total books: 1\n", "\n---\n",
       "\n## Finished (1)\n", "### None\n", "\n---\n" ]
     rfl rfl⟩
